import Mathlib

/-!
Shallow embedding of the query core of `src/app.py` (a Streamlit app over the
"International football results 1872-2024" datasets) and proofs about it.

The embedded functions are `load_data` (match loading, outcome derivation and
the left merge with the shootout table), `prepare_head_to_head_data`,
`prepare_world_cup_data`, and the per-row outcome-label lambda of the
head-to-head page.  Pandas operations are modelled at the level of their
documented semantics on lists of typed rows:
  * `pd.to_datetime(column)` with the default `errors` policy raises on the
    first unparseable entry, aborting the whole conversion;
  * `DataFrame.merge(..., how=left)` emits, for each left row, one output row
    per matching right row, or a single row with a missing (`NaN`) value when
    no right row matches;
  * boolean-mask indexing `df[mask]` returns a fresh copy;
  * `Series.str.contains(pat, case=False, na=False)` is modelled as
    case-insensitive literal-substring containment, which coincides with the
    pandas regex behaviour on every pattern free of regex metacharacters (all
    tournament names that the app can pass as a filter are of that shape);
  * `Series.between(a, b)` is inclusive at both ends.
Scores are `Nat` (the CSVs hold non-negative integers), fractional statistics
are `ℚ` (exact values of the Python division on this data).
-/

/-- A calendar date, the payload that `pd.to_datetime` produces for the
`date` columns (the datasets carry no time component). -/
structure Date where
  year : Nat
  month : Nat
  day : Nat
deriving DecidableEq, Repr

/-- Chronological (lexicographic) order on dates, the order `pandas`
timestamps are compared by in `Series.between`. -/
def Date.le (d1 d2 : Date) : Bool :=
  decide (d1.year < d2.year) ||
    (decide (d1.year = d2.year) &&
      (decide (d1.month < d2.month) ||
        (decide (d1.month = d2.month) && decide (d1.day ≤ d2.day))))

/-- Gregorian leap-year test, used to validate day-of-month exactly as
`pd.to_datetime` does. -/
def isLeapYear (y : Nat) : Bool :=
  (y % 4 == 0 && y % 100 != 0) || y % 400 == 0

/-- Number of days of a month, for date validation. -/
def daysInMonth (y m : Nat) : Nat :=
  if m = 2 then (if isLeapYear y then 29 else 28)
  else if m = 4 ∨ m = 6 ∨ m = 9 ∨ m = 11 then 30
  else 31

/-- Split a character list on the dash separator of an ISO `YYYY-MM-DD`
date string. -/
def splitOnDash : List Char → List (List Char)
  | [] => [[]]
  | c :: cs =>
    if c = '-' then [] :: splitOnDash cs
    else
      match splitOnDash cs with
      | [] => [[c]]
      | g :: gs => (c :: g) :: gs

/-- Read a non-empty all-digit character list as a natural number. -/
def charsToNat? (cs : List Char) : Option Nat :=
  if cs ≠ [] ∧ cs.all Char.isDigit then
    some (cs.foldl (fun n c => n * 10 + (c.toNat - 48)) 0)
  else none

/-- `pd.to_datetime` applied to one raw date string of the datasets
(`src/app.py` lines 24-25).  The datasets store ISO `YYYY-MM-DD` dates; a
string not of that shape, or naming an impossible calendar day, fails to
parse (`none`), which in pandas surfaces as a raised conversion error. -/
def parseDate (s : String) : Option Date :=
  match splitOnDash s.data with
  | [y, m, d] =>
    match charsToNat? y, charsToNat? m, charsToNat? d with
    | some yn, some mn, some dn =>
      if 1 ≤ mn ∧ mn ≤ 12 ∧ 1 ≤ dn ∧ dn ≤ daysInMonth yn mn then
        some ⟨yn, mn, dn⟩
      else none
    | _, _, _ => none
  | _ => none

/-- `startsWith pat s` holds when `pat` is an initial segment of `s`. -/
def startsWith : List Char → List Char → Bool
  | [], _ => true
  | _ :: _, [] => false
  | p :: ps, c :: cs => p == c && startsWith ps cs

/-- `containsSub pat s` holds when `pat` occurs contiguously inside `s`;
the substring test underlying `Series.str.contains` on literal patterns. -/
def containsSub (pat : List Char) : List Char → Bool
  | [] => startsWith pat []
  | c :: s => startsWith pat (c :: s) || containsSub pat s

/-- The characters of a string, lower-cased: the effect of `case=False` in
`Series.str.contains`. -/
def lowerChars (s : String) : List Char :=
  s.data.map Char.toLower

/-- `Series.str.contains(filter, case=False, na=False)` applied to one
tournament cell (`src/app.py` line 53), on literal (metacharacter-free)
patterns. -/
def containsCI (s pat : String) : Bool :=
  containsSub (lowerChars pat) (lowerChars s)

/-- Specification-side reading of case-insensitive substring containment:
the lower-cased filter occurs contiguously inside the lower-cased cell. -/
def ContainsCI (s pat : String) : Prop :=
  ∃ l r, lowerChars s = l ++ lowerChars pat ++ r

theorem startsWith_iff (pat s : List Char) :
    startsWith pat s = true ↔ ∃ t, s = pat ++ t := by
  induction pat generalizing s with
  | nil => simp [startsWith]
  | cons p ps ih =>
    cases s with
    | nil => simp [startsWith]
    | cons c cs =>
      simp only [startsWith, Bool.and_eq_true, beq_iff_eq, ih, List.cons_append,
        List.cons.injEq]
      constructor
      · rintro ⟨rfl, t, rfl⟩
        exact ⟨t, rfl, rfl⟩
      · rintro ⟨t, rfl, rfl⟩
        exact ⟨rfl, t, rfl⟩

theorem containsSub_iff (pat s : List Char) :
    containsSub pat s = true ↔ ∃ l r, s = l ++ pat ++ r := by
  induction s with
  | nil =>
    simp only [containsSub, startsWith_iff]
    constructor
    · rintro ⟨t, ht⟩
      exact ⟨[], t, ht⟩
    · rintro ⟨l, r, h⟩
      cases l with
      | nil => exact ⟨r, h⟩
      | cons x xs => simp at h
  | cons c cs ih =>
    simp only [containsSub, Bool.or_eq_true, startsWith_iff, ih]
    constructor
    · rintro (⟨t, ht⟩ | ⟨l, r, rfl⟩)
      · exact ⟨[], t, ht⟩
      · exact ⟨c :: l, r, rfl⟩
    · rintro ⟨l, r, h⟩
      cases l with
      | nil => exact Or.inl ⟨r, h⟩
      | cons x xs =>
        simp only [List.cons_append, List.cons.injEq] at h
        exact Or.inr ⟨xs, r, h.2⟩

theorem containsCI_iff (s pat : String) :
    containsCI s pat = true ↔ ContainsCI s pat :=
  containsSub_iff (lowerChars pat) (lowerChars s)

theorem containsCI_empty (s : String) : ContainsCI s "" :=
  ⟨lowerChars s, [], by simp [lowerChars]⟩

theorem date_le_refl (d : Date) : Date.le d d = true := by
  simp [Date.le]

/-- A raw row of `results.csv` as handed to `load_data`: the date still a
string, scores already numeric (`src/app.py` line 20). -/
structure RawResultRow where
  date : String
  home_team : String
  away_team : String
  home_score : Nat
  away_score : Nat
  tournament : String
deriving DecidableEq, Repr

/-- A match row after the date conversion of `src/app.py` line 24. -/
structure ResultRow where
  date : Date
  home_team : String
  away_team : String
  home_score : Nat
  away_score : Nat
  tournament : String
deriving DecidableEq, Repr

/-- The per-row outcome lambda of `src/app.py` lines 28-32: the home team
name when the home side scored more, the away team name when the away side
scored more, and the draw marker otherwise. -/
def outcome (r : ResultRow) : String :=
  if r.home_score > r.away_score then r.home_team
  else if r.away_score > r.home_score then r.away_team
  else "Draw"

/-- A row of `shootouts.csv` after date conversion (`src/app.py` line 25):
the join columns plus the shootout winner. -/
structure ShootoutRow where
  date : Date
  home_team : String
  away_team : String
  winner : String
deriving DecidableEq, Repr

/-- A row of the merged frame returned by `load_data` (`src/app.py` lines
35-42): the result row, its derived outcome, the left-joined shootout
`winner` (absent when no shootout row matched) and the `shootout` flag,
defined at line 42 as `winner.notna()`. -/
structure MergedRow where
  date : Date
  home_team : String
  away_team : String
  home_score : Nat
  away_score : Nat
  tournament : String
  outcome : String
  winner : Option String
  shootout : Bool
deriving DecidableEq, Repr

/-- Whether a shootout row matches a result row on the exact merge key
`(date, home_team, away_team)` of `src/app.py` line 37. -/
def keyMatches (s : ShootoutRow) (r : ResultRow) : Bool :=
  decide (s.date = r.date) && decide (s.home_team = r.home_team) &&
    decide (s.away_team = r.away_team)

/-- The contribution of one result row to the left merge of `src/app.py`
lines 35-42.  Pandas `how=left` semantics: one output row per matching
shootout row, in shootout-table order; a single row with `winner = NaN`
when no shootout row matches.  `shootout` is `winner.notna()` (line 42). -/
def mergeRow (shootouts : List ShootoutRow) (r : ResultRow) : List MergedRow :=
  match shootouts.filter (fun s => keyMatches s r) with
  | [] => [⟨r.date, r.home_team, r.away_team, r.home_score, r.away_score,
            r.tournament, outcome r, none, false⟩]
  | ms => ms.map (fun s =>
      ⟨r.date, r.home_team, r.away_team, r.home_score, r.away_score,
        r.tournament, outcome r, some s.winner, (some s.winner).isSome⟩)

/-- The merge step of `load_data` (`src/app.py` lines 35-42) over the whole
match table, preserving left-row order. -/
def load_merge (results : List ResultRow) (shootouts : List ShootoutRow) :
    List MergedRow :=
  (results.map (mergeRow shootouts)).flatten

/-- The date-conversion pass `pd.to_datetime(results_df.date)` of
`src/app.py` line 24: converts every row's date, and raises (aborting the
whole conversion, hence the whole load) on the first unparseable date.  No
row is skipped and no default date is fabricated. -/
def load_results : List RawResultRow → Except String (List ResultRow)
  | [] => .ok []
  | raw :: rest =>
    match parseDate raw.date with
    | none => .error ("unparseable date: " ++ raw.date)
    | some d =>
      match load_results rest with
      | .error e => .error e
      | .ok rs => .ok (⟨d, raw.home_team, raw.away_team, raw.home_score,
                        raw.away_score, raw.tournament⟩ :: rs)

/-- `load_data` of `src/app.py` lines 17-44 restricted to the match table:
date conversion, outcome derivation, and the left merge with the shootout
table.  (The goalscorers table is read and returned unchanged by the
source function.) -/
def load_data (rawResults : List RawResultRow) (shootouts : List ShootoutRow) :
    Except String (List MergedRow) :=
  match load_results rawResults with
  | .error e => .error e
  | .ok rs => .ok (load_merge rs shootouts)

/-- First shootout row matching a result row's key, if any: the row a
duplicate-free left merge links to the match. -/
def findShootoutWinner (shootouts : List ShootoutRow) (r : ResultRow) :
    Option String :=
  (shootouts.find? (fun s => keyMatches s r)).map ShootoutRow.winner

/-- The single merged row a match contributes when its key matches at most
one shootout row: `winner` is that row's winner when present, and
`shootout` is `winner.notna()`. -/
def annotate (r : ResultRow) (w : Option String) : MergedRow :=
  ⟨r.date, r.home_team, r.away_team, r.home_score, r.away_score,
    r.tournament, outcome r, w, w.isSome⟩

/-- `prepare_head_to_head_data` of `src/app.py` lines 49-56: keeps the rows
whose team pair equals `{team1, team2}` in either orientation, whose
tournament contains the filter case-insensitively, and whose date lies in
`[start_date, end_date]` (pandas `between` is inclusive at both ends). -/
def prepare_head_to_head_data (results : List MergedRow)
    (team1 team2 tournament : String) (start_date end_date : Date) :
    List MergedRow :=
  results.filter (fun r =>
    ((decide (r.home_team = team1) && decide (r.away_team = team2)) ||
      (decide (r.home_team = team2) && decide (r.away_team = team1))) &&
    containsCI r.tournament tournament &&
    (Date.le start_date r.date && Date.le r.date end_date))

/-- The outcome-label lambda of `src/app.py` lines 145-147, applied to one
outcome cell of a selected row: the matching team's win label, or the draw
label. -/
def outcome_label (team1 team2 x : String) : String :=
  if x = team1 then team1 ++ " Win"
  else if x = team2 then team2 ++ " Win"
  else "Draw"

/-- The statistics tuple returned by `prepare_world_cup_data` in its
non-empty branch (`src/app.py` lines 70-85): the aggregate counts, the
extracted final row, and the winner string after the NaN-handling of lines
79-83 (the source writes it back into its copy of the final row; we carry
it as `final_winner`). -/
structure WorldCupStats where
  total_matches : Nat
  total_goals : Nat
  total_teams : Nat
  avg_goals_per_game : ℚ
  final_match : MergedRow
  final_winner : String
deriving DecidableEq, Repr

/-- The winner-resolution of `src/app.py` lines 79-83 on the extracted
final row: a present (non-NaN) merged `winner` is kept; otherwise, if the
`shootout` flag is set, a penalties winner is derived from the scores, and
failing that the row is reported as a draw. -/
def resolveFinalWinner (fm : MergedRow) : String :=
  match fm.winner with
  | some w => w
  | none =>
    if fm.shootout then
      "Winner (Penalties): " ++
        (if fm.home_score > fm.away_score then fm.home_team else fm.away_team)
    else "Draw"

/-- `prepare_world_cup_data` of `src/app.py` lines 59-85 with the hardcoded
tournament literal abstracted into the parameter `tname` (the source fixes
`tname = "FIFA World Cup"`; see `prepare_world_cup_data` below for that
instance).  Selects the rows of the tournament whose date's calendar year
is `year`; on an empty selection returns `none` (the source's
`(None, None, None, None, None)`), otherwise the counts of lines 70-73 and
the final row `wc_df.iloc[-1]` with its resolved winner. -/
def prepare_tournament_year_data (results : List MergedRow) (tname : String)
    (year : Nat) : Option WorldCupStats :=
  let wc := results.filter (fun r =>
    decide (r.tournament = tname) && decide (r.date.year = year))
  match wc.getLast? with
  | none => none
  | some fm =>
    let total_matches := wc.length
    let total_goals := (wc.map MergedRow.home_score).sum +
      (wc.map MergedRow.away_score).sum
    let total_teams :=
      ((wc.map MergedRow.home_team) ++ (wc.map MergedRow.away_team)).dedup.length
    let avg : ℚ :=
      if total_matches > 0 then (total_goals : ℚ) / (total_matches : ℚ) else 0
    some ⟨total_matches, total_goals, total_teams, avg, fm,
      resolveFinalWinner fm⟩

/-- `prepare_world_cup_data` of `src/app.py` lines 59-85 as written: the
tournament is hardcoded to the FIFA World Cup. -/
def prepare_world_cup_data (results : List MergedRow) (year : Nat) :
    Option WorldCupStats :=
  prepare_tournament_year_data results "FIFA World Cup" year

/-- A goal event of `goalscorers.csv`, with the derived tournament of its
parent match (absent when no match row carries its key). -/
structure GoalRow where
  date : Date
  home_team : String
  away_team : String
  scorer : String
  minute : Nat
  penalty : Bool
  tournament : Option String
deriving DecidableEq, Repr

/-- Modelled from the spec: the tournament-filter test of the player
comparison query (spec §4.5), which is absent from `src/app.py`.  An empty
filter matches every goal event; a non-empty filter matches exactly the
events whose derived tournament is present and contains the filter as a
case-insensitive substring, so an event with absent tournament never
matches a non-empty filter. -/
def tournamentOptMatches (filt : String) : Option String → Bool
  | none => decide (filt = "")
  | some t => containsCI t filt

/-- Modelled from the spec: the Player Comparison Query of spec §4.5,
absent from `src/app.py` (the source implements only the head-to-head and
World Cup pages).  Keeps the goal events whose scorer is `player1` or
`player2`, whose date lies in `[start_date, end_date]`, and whose derived
tournament passes the filter. -/
def prepare_player_comparison_data (goals : List GoalRow)
    (player1 player2 filt : String) (start_date end_date : Date) :
    List GoalRow :=
  goals.filter (fun g =>
    (decide (g.scorer = player1) || decide (g.scorer = player2)) &&
    tournamentOptMatches filt g.tournament &&
    (Date.le start_date g.date && Date.le g.date end_date))

/-- The three tables `load_data` returns, held by the app as read-only
state for the rest of the run (`src/app.py` line 46). -/
structure Tables where
  goalscorers : List GoalRow
  results : List MergedRow
  shootouts : List ShootoutRow
deriving DecidableEq, Repr

/-- The head-to-head page's query steps (`src/app.py` lines 136-150) with
the table state passed explicitly: selection by
`prepare_head_to_head_data`, then the outcome-label column.  Boolean-mask
indexing (line 50) returns a copy of the selected rows, and the label
column assignment (line 145) writes into that copy, so the stored tables
come back unchanged. -/
def run_head_to_head (t : Tables) (team1 team2 filt : String)
    (start_date end_date : Date) : List (MergedRow × String) × Tables :=
  let df := prepare_head_to_head_data t.results team1 team2 filt
    start_date end_date
  (df.map (fun r => (r, outcome_label team1 team2 r.outcome)), t)

/-- The World Cup page's query step (`src/app.py` line 170) with the table
state passed explicitly: `final_match` (line 76) is a copy of the last
selected row, and the winner write of lines 81/83 targets that copy, so
the stored tables come back unchanged. -/
def run_world_cup (t : Tables) (year : Nat) :
    Option WorldCupStats × Tables :=
  (prepare_world_cup_data t.results year, t)

/-- C1: for every match row with non-negative integer scores, the derived
outcome is the home team name when `home_score > away_score`, the away
team name when `away_score > home_score`, and the draw marker when the
scores are equal; the derivation is total (its value is always one of the
three), including at `(0, 0)`. -/
theorem c1_outcome_correct (r : ResultRow) :
    (r.home_score > r.away_score → outcome r = r.home_team) ∧
    (r.away_score > r.home_score → outcome r = r.away_team) ∧
    (r.home_score = r.away_score → outcome r = "Draw") ∧
    (outcome r = r.home_team ∨ outcome r = r.away_team ∨
      outcome r = "Draw") := by
  unfold outcome
  refine ⟨?_, ?_, ?_, ?_⟩
  · intro h
    rw [if_pos h]
  · intro h
    rw [if_neg (by omega), if_pos h]
  · intro h
    rw [if_neg (by omega), if_neg (by omega)]
  · split_ifs <;> simp

/-- Evaluation of `c1_outcome_correct` at the concrete score pair `(0, 0)`:
the first recorded international ends in a draw. -/
theorem c1_outcome_correct_witness :
    outcome ⟨⟨1872, 11, 30⟩, "Scotland", "England", 0, 0, "Friendly"⟩ =
      "Draw" :=
  (c1_outcome_correct ⟨⟨1872, 11, 30⟩, "Scotland", "England", 0, 0,
    "Friendly"⟩).2.2.1 rfl

/-- C4: the head-to-head query keeps exactly the rows whose team pair
equals `{team1, team2}` as an unordered pair by exact string equality,
whose tournament contains the filter as a case-insensitive substring (the
empty filter matching every tournament cell), and whose date lies in
`[start_date, end_date]` inclusive at both ends (witnessed by the
reflexivity of the date order: a row dated exactly at an endpoint passes
that bound). -/
theorem c4_head_to_head_selection :
    (∀ (results : List MergedRow) (t1 t2 filt : String) (sd ed : Date)
        (r : MergedRow),
      r ∈ prepare_head_to_head_data results t1 t2 filt sd ed ↔
        r ∈ results ∧
          ((r.home_team = t1 ∧ r.away_team = t2) ∨
            (r.home_team = t2 ∧ r.away_team = t1)) ∧
          ContainsCI r.tournament filt ∧
          (Date.le sd r.date = true ∧ Date.le r.date ed = true)) ∧
    (∀ s : String, ContainsCI s "") ∧
    (∀ d : Date, Date.le d d = true) := by
  refine ⟨?_, containsCI_empty, date_le_refl⟩
  intro results t1 t2 filt sd ed r
  simp only [prepare_head_to_head_data, List.mem_filter, Bool.and_eq_true,
    Bool.or_eq_true, decide_eq_true_eq, containsCI_iff]
  tauto

/-- Evaluation of `c4_head_to_head_selection` at a concrete table: the 2018
final is selected by the reversed team pair, a lower-case partial
tournament filter, and a range whose end is the match date itself. -/
theorem c4_head_to_head_selection_witness :
    (⟨⟨2018, 7, 15⟩, "France", "Croatia", 4, 2, "FIFA World Cup", "France",
        none, false⟩ : MergedRow) ∈
      prepare_head_to_head_data
        [⟨⟨2018, 7, 15⟩, "France", "Croatia", 4, 2, "FIFA World Cup",
          "France", none, false⟩]
        "Croatia" "France" "world cup" ⟨2018, 1, 1⟩ ⟨2018, 7, 15⟩ :=
  (c4_head_to_head_selection.1 _ "Croatia" "France" "world cup"
      ⟨2018, 1, 1⟩ ⟨2018, 7, 15⟩ _).mpr
    ⟨by simp, Or.inr ⟨rfl, rfl⟩, (containsCI_iff _ _).mp (by decide),
      by decide, by decide⟩

/-- C7: the head-to-head selection is symmetric in the two teams — the two
orientations of the query return the same rows (even in the same order) —
and the outcome-label column agrees row-for-row between the two
orientations: a row won by team `A` carries `A`'s win label under either
orientation, and a row won by neither query team is labelled a draw. -/
theorem c7_head_to_head_symmetric :
    (∀ (results : List MergedRow) (a b filt : String) (sd ed : Date),
      prepare_head_to_head_data results a b filt sd ed =
        prepare_head_to_head_data results b a filt sd ed) ∧
    (∀ a b x : String, outcome_label a b x = outcome_label b a x) ∧
    (∀ a b x : String, x = a → outcome_label a b x = a ++ " Win") ∧
    (∀ a b x : String, x ≠ a → x ≠ b → outcome_label a b x = "Draw") := by
  refine ⟨?_, ?_, ?_, ?_⟩
  · intro results a b filt sd ed
    unfold prepare_head_to_head_data
    apply List.filter_congr
    intro r _
    rw [Bool.or_comm]
  · intro a b x
    unfold outcome_label
    split_ifs <;> simp_all
  · intro a b x h
    subst h
    unfold outcome_label
    rw [if_pos rfl]
  · intro a b x h1 h2
    unfold outcome_label
    rw [if_neg h1, if_neg h2]

/-- Evaluation of `c7_head_to_head_symmetric` at concrete labels: a drawn
outcome cell is labelled `Draw` relative to the query pair. -/
theorem c7_head_to_head_symmetric_witness :
    outcome_label "France" "Croatia" "Draw" = "Draw" :=
  c7_head_to_head_symmetric.2.2.2 "France" "Croatia" "Draw" (by decide)
    (by decide)

/-- C8: on a table with no self-play fixture (every row's home and away
teams differ — an invariant of the datasets), the head-to-head query with
`team1 = team2` returns the empty list: zero matches, not an error. -/
theorem c8_self_pair_empty (results : List MergedRow) (a filt : String)
    (sd ed : Date) (h : ∀ r ∈ results, r.home_team ≠ r.away_team) :
    prepare_head_to_head_data results a a filt sd ed = [] := by
  unfold prepare_head_to_head_data
  rw [List.filter_eq_nil_iff]
  intro r hr
  simp only [Bool.and_eq_true, Bool.or_eq_true, decide_eq_true_eq]
  rintro ⟨⟨(⟨h1, h2⟩ | ⟨h1, h2⟩), -⟩, -⟩ <;>
    exact h r hr (h1.trans h2.symm)

/-- Evaluation of `c8_self_pair_empty` at a concrete one-row table. -/
theorem c8_self_pair_empty_witness :
    prepare_head_to_head_data
      [⟨⟨2018, 7, 15⟩, "France", "Croatia", 4, 2, "FIFA World Cup",
        "France", none, false⟩]
      "France" "France" "" ⟨2018, 1, 1⟩ ⟨2018, 12, 31⟩ = [] :=
  c8_self_pair_empty _ "France" "" ⟨2018, 1, 1⟩ ⟨2018, 12, 31⟩ (by decide)

/-- The composite join key `(date, home_team, away_team)` of a shootout
row. -/
def sKey (s : ShootoutRow) : Date × String × String :=
  (s.date, s.home_team, s.away_team)

theorem keyMatches_iff (s : ShootoutRow) (r : ResultRow) :
    keyMatches s r = true ↔ sKey s = (r.date, r.home_team, r.away_team) := by
  simp [keyMatches, sKey, Prod.ext_iff, and_assoc]

theorem filter_keyMatches_of_pairwise (shootouts : List ShootoutRow)
    (r : ResultRow)
    (h : shootouts.Pairwise (fun a b => sKey a ≠ sKey b)) :
    shootouts.filter (fun s => keyMatches s r) =
      match shootouts.find? (fun s => keyMatches s r) with
      | none => []
      | some s => [s] := by
  induction shootouts with
  | nil => rfl
  | cons a rest ih =>
    rcases List.pairwise_cons.mp h with ⟨ha, h'⟩
    by_cases hk : keyMatches a r = true
    · rw [List.filter_cons_of_pos (p := fun s => keyMatches s r) hk,
        List.find?_cons_of_pos (p := fun s => keyMatches s r) rest hk]
      have hrest : rest.filter (fun s => keyMatches s r) = [] := by
        rw [List.filter_eq_nil_iff]
        intro b hb hkb
        exact ha b hb (((keyMatches_iff a r).mp hk).trans
          ((keyMatches_iff b r).mp hkb).symm)
      rw [hrest]
    · rw [List.filter_cons_of_neg (by simpa using hk),
        List.find?_cons_of_neg _ (by simpa using hk)]
      exact ih h'

/-- C3 (amended): when no two shootout rows share a join key, the merge
annotates each match with exactly one output row, `shootout` holds exactly
when some shootout row carries the match's key, and `winner` is the
(unique, first-seen) matching row's winner, absent when no key matches.
(Without the uniqueness hypothesis the pandas left merge duplicates the
match row, one output row per matching shootout row — see the
counterexample.) -/
theorem c3_merge_unique_key (results : List ResultRow)
    (shootouts : List ShootoutRow)
    (h : shootouts.Pairwise (fun a b => sKey a ≠ sKey b)) :
    load_merge results shootouts =
      results.map (fun r => annotate r (findShootoutWinner shootouts r)) ∧
    (∀ r : ResultRow,
      (findShootoutWinner shootouts r).isSome = true ↔
        ∃ s ∈ shootouts, keyMatches s r = true) ∧
    (∀ r : ResultRow, ∀ w : Option String, (annotate r w).shootout = w.isSome) := by
  refine ⟨?_, ?_, fun r w => rfl⟩
  · have hone : ∀ r : ResultRow, mergeRow shootouts r =
        [annotate r (findShootoutWinner shootouts r)] := by
      intro r
      unfold mergeRow findShootoutWinner
      rw [filter_keyMatches_of_pairwise shootouts r h]
      cases hf : shootouts.find? (fun s => keyMatches s r) with
      | none => rfl
      | some s => rfl
    unfold load_merge
    induction results with
    | nil => rfl
    | cons r rest ih =>
      rw [List.map_cons, List.map_cons, List.flatten_cons, hone r, ih]
      rfl
  · intro r
    unfold findShootoutWinner
    have hmap : ∀ x : Option ShootoutRow,
        (Option.map ShootoutRow.winner x).isSome = x.isSome := by
      intro x
      cases x <;> rfl
    rw [hmap]
    simp [List.find?_isSome]

/-- Evaluation of `c3_merge_unique_key` at a concrete table: one match, two
shootout rows with distinct keys, of which the second matches the match's
key. -/
theorem c3_merge_unique_key_witness :
    load_merge
      [⟨⟨2022, 12, 18⟩, "Argentina", "France", 3, 3, "FIFA World Cup"⟩]
      [⟨⟨2022, 12, 17⟩, "Croatia", "Morocco", "Croatia"⟩,
        ⟨⟨2022, 12, 18⟩, "Argentina", "France", "Argentina"⟩] =
      [⟨⟨2022, 12, 18⟩, "Argentina", "France", 3, 3, "FIFA World Cup",
        "Draw", some "Argentina", true⟩] := by
  have h := (c3_merge_unique_key
    [⟨⟨2022, 12, 18⟩, "Argentina", "France", 3, 3, "FIFA World Cup"⟩]
    [⟨⟨2022, 12, 17⟩, "Croatia", "Morocco", "Croatia"⟩,
      ⟨⟨2022, 12, 18⟩, "Argentina", "France", "Argentina"⟩]
    (by decide)).1
  rw [h]
  rfl

/-- C3 counterexample: on a match whose key is shared by two shootout rows,
the left merge of `src/app.py` lines 35-39 emits two annotated rows for
that single match, refuting "exactly one annotated row per match" and
"never yielding duplicated or multiply-applied match rows". -/
theorem c3_counterexample :
    (load_merge
      [⟨⟨2022, 12, 18⟩, "Argentina", "France", 3, 3, "FIFA World Cup"⟩]
      [⟨⟨2022, 12, 18⟩, "Argentina", "France", "Argentina"⟩,
        ⟨⟨2022, 12, 18⟩, "Argentina", "France", "France"⟩]).length = 2 ∧
    ([⟨⟨2022, 12, 18⟩, "Argentina", "France", 3, 3,
      "FIFA World Cup"⟩] : List ResultRow).length = 1 := by
  constructor <;> rfl

/-- The tournament-year selection of `src/app.py` lines 61-64: the rows
whose tournament equals `tname` exactly and whose date's calendar year is
`year`. -/
def tySel (results : List MergedRow) (tname : String) (year : Nat) :
    List MergedRow :=
  results.filter (fun r =>
    decide (r.tournament = tname) && decide (r.date.year = year))

theorem prepare_ty_spec (results : List MergedRow) (tname : String)
    (year : Nat) :
    prepare_tournament_year_data results tname year =
      match (tySel results tname year).getLast? with
      | none => none
      | some fm =>
        some ⟨(tySel results tname year).length,
          ((tySel results tname year).map MergedRow.home_score).sum +
            ((tySel results tname year).map MergedRow.away_score).sum,
          (((tySel results tname year).map MergedRow.home_team) ++
            ((tySel results tname year).map MergedRow.away_team)).dedup.length,
          if (tySel results tname year).length > 0 then
            ((((tySel results tname year).map MergedRow.home_score).sum +
              ((tySel results tname year).map MergedRow.away_score).sum : Nat) :
                ℚ) / ((tySel results tname year).length : ℚ)
          else 0,
          fm, resolveFinalWinner fm⟩ := rfl

theorem sum_map_add {α : Type} (l : List α) (f g : α → Nat) :
    (l.map (fun x => f x + g x)).sum = (l.map f).sum + (l.map g).sum := by
  induction l with
  | nil => rfl
  | cons a l ih =>
    simp [ih]
    omega

/-- C5: the tournament-year summary selects exactly the rows whose
tournament equals the queried name and whose calendar year matches;
it returns the not-found marker exactly on an empty selection, and
otherwise the match count is the selection size, the goal count the sum of
`home_score + away_score`, the team count the cardinality of the union of
home and away team identities, and the average the exact quotient
`goal_count / match_count`.  The source hardcodes the tournament to the
FIFA World Cup; `prepare_world_cup_data` is exactly that instance. -/
theorem c5_tournament_year_summary (results : List MergedRow)
    (tname : String) (year : Nat) :
    (prepare_tournament_year_data results tname year = none ↔
      tySel results tname year = []) ∧
    (∀ r : MergedRow, r ∈ tySel results tname year ↔
      r ∈ results ∧ r.tournament = tname ∧ r.date.year = year) ∧
    (∀ stats : WorldCupStats,
      prepare_tournament_year_data results tname year = some stats →
      stats.total_matches = (tySel results tname year).length ∧
      stats.total_goals =
        ((tySel results tname year).map
          (fun r => r.home_score + r.away_score)).sum ∧
      stats.total_teams =
        (((tySel results tname year).map MergedRow.home_team).toFinset ∪
          ((tySel results tname year).map MergedRow.away_team).toFinset).card ∧
      0 < stats.total_matches ∧
      stats.avg_goals_per_game =
        (stats.total_goals : ℚ) / (stats.total_matches : ℚ) ∧
      (tySel results tname year).getLast? = some stats.final_match) ∧
    prepare_world_cup_data results year =
      prepare_tournament_year_data results "FIFA World Cup" year := by
  refine ⟨?_, ?_, ?_, rfl⟩
  · rw [prepare_ty_spec]
    cases hl : (tySel results tname year).getLast? with
    | none =>
      simpa using List.getLast?_eq_none_iff.mp hl
    | some fm =>
      simp only [reduceCtorEq, false_iff]
      intro hnil
      rw [hnil] at hl
      cases hl
  · intro r
    simp [tySel, List.mem_filter, and_assoc]
  · intro stats hstats
    rw [prepare_ty_spec] at hstats
    cases hl : (tySel results tname year).getLast? with
    | none =>
      rw [hl] at hstats
      cases hstats
    | some fm =>
      rw [hl] at hstats
      have hne : tySel results tname year ≠ [] := by
        intro hnil
        rw [hnil] at hl
        cases hl
      have hpos : 0 < (tySel results tname year).length :=
        List.length_pos.mpr hne
      cases hstats
      refine ⟨rfl, ?_, ?_, hpos, ?_, rfl⟩
      · exact (sum_map_add (tySel results tname year) MergedRow.home_score
          MergedRow.away_score).symm
      · rw [← List.toFinset_append, List.card_toFinset]
      · simp only [gt_iff_lt, hpos, if_pos]

/-- Evaluation of `c5_tournament_year_summary` at the two-match example of
the spec: scores `(2, 1)` and `(0, 0)` among teams `TeamA`, `TeamB`,
`TeamC` give 2 matches, 3 goals, 3 teams and an average of `3 / 2`. -/
theorem c5_tournament_year_summary_witness :
    (⟨2, 3, 3, (3 : ℚ) / (2 : ℚ),
        ⟨⟨2000, 6, 12⟩, "TeamB", "TeamC", 0, 0, "T", "Draw", none, false⟩,
        "Draw"⟩ : WorldCupStats).total_matches =
      (tySel
        [⟨⟨2000, 6, 10⟩, "TeamA", "TeamB", 2, 1, "T", "TeamA", none, false⟩,
          ⟨⟨2000, 6, 12⟩, "TeamB", "TeamC", 0, 0, "T", "Draw", none, false⟩]
        "T" 2000).length ∧
    (⟨2, 3, 3, (3 : ℚ) / (2 : ℚ),
        ⟨⟨2000, 6, 12⟩, "TeamB", "TeamC", 0, 0, "T", "Draw", none, false⟩,
        "Draw"⟩ : WorldCupStats).total_goals =
      ((tySel
        [⟨⟨2000, 6, 10⟩, "TeamA", "TeamB", 2, 1, "T", "TeamA", none, false⟩,
          ⟨⟨2000, 6, 12⟩, "TeamB", "TeamC", 0, 0, "T", "Draw", none, false⟩]
        "T" 2000).map (fun r => r.home_score + r.away_score)).sum ∧
    (⟨2, 3, 3, (3 : ℚ) / (2 : ℚ),
        ⟨⟨2000, 6, 12⟩, "TeamB", "TeamC", 0, 0, "T", "Draw", none, false⟩,
        "Draw"⟩ : WorldCupStats).total_teams =
      (((tySel
        [⟨⟨2000, 6, 10⟩, "TeamA", "TeamB", 2, 1, "T", "TeamA", none, false⟩,
          ⟨⟨2000, 6, 12⟩, "TeamB", "TeamC", 0, 0, "T", "Draw", none, false⟩]
        "T" 2000).map MergedRow.home_team).toFinset ∪
        ((tySel
          [⟨⟨2000, 6, 10⟩, "TeamA", "TeamB", 2, 1, "T", "TeamA", none, false⟩,
            ⟨⟨2000, 6, 12⟩, "TeamB", "TeamC", 0, 0, "T", "Draw", none,
              false⟩]
          "T" 2000).map MergedRow.away_team).toFinset).card ∧
    0 < (⟨2, 3, 3, (3 : ℚ) / (2 : ℚ),
        ⟨⟨2000, 6, 12⟩, "TeamB", "TeamC", 0, 0, "T", "Draw", none, false⟩,
        "Draw"⟩ : WorldCupStats).total_matches ∧
    (⟨2, 3, 3, (3 : ℚ) / (2 : ℚ),
        ⟨⟨2000, 6, 12⟩, "TeamB", "TeamC", 0, 0, "T", "Draw", none, false⟩,
        "Draw"⟩ : WorldCupStats).avg_goals_per_game = ((3 : Nat) : ℚ) / ((2 : Nat) : ℚ) := by
  have h := (c5_tournament_year_summary
    [⟨⟨2000, 6, 10⟩, "TeamA", "TeamB", 2, 1, "T", "TeamA", none, false⟩,
      ⟨⟨2000, 6, 12⟩, "TeamB", "TeamC", 0, 0, "T", "Draw", none, false⟩]
    "T" 2000).2.2.1
    ⟨2, 3, 3, (3 : ℚ) / (2 : ℚ),
      ⟨⟨2000, 6, 12⟩, "TeamB", "TeamC", 0, 0, "T", "Draw", none, false⟩,
      "Draw"⟩
    (by rw [prepare_ty_spec]; rfl)
  exact ⟨h.1, h.2.1, h.2.2.1, h.2.2.2.1, h.2.2.2.2.1⟩

/-- C2 (code bug, evaluated at the failing input): a decisive final —
France 4, Croatia 2, no shootout row — loads into a merged row whose
derived outcome is `France`, yet `prepare_world_cup_data` reports the
final winner as `Draw`: the NaN-handling of `src/app.py` lines 79-83 tests
only the merged shootout `winner` column, never the derived outcome, and
its penalties fallback is unreachable because `shootout` is defined at
line 42 as `winner.notna()`. -/
theorem c2_final_winner_code_bug :
    load_data [⟨"2018-07-15", "France", "Croatia", 4, 2, "FIFA World Cup"⟩]
        [] =
      .ok [⟨⟨2018, 7, 15⟩, "France", "Croatia", 4, 2, "FIFA World Cup",
        "France", none, false⟩] ∧
    prepare_world_cup_data
        [⟨⟨2018, 7, 15⟩, "France", "Croatia", 4, 2, "FIFA World Cup",
          "France", none, false⟩] 2018 =
      some ⟨1, 6, 2, ((6 : Nat) : ℚ) / ((1 : Nat) : ℚ),
        ⟨⟨2018, 7, 15⟩, "France", "Croatia", 4, 2, "FIFA World Cup",
          "France", none, false⟩, "Draw"⟩ ∧
    (⟨⟨2018, 7, 15⟩, "France", "Croatia", 4, 2, "FIFA World Cup", "France",
        none, false⟩ : MergedRow).outcome = "France" ∧
    "Draw" ≠ "France" :=
  ⟨rfl, rfl, rfl, by decide⟩

/-- C6 (amended): an unparseable date in the raw match table makes the
date-conversion pass — and with it the whole load — fail: the load errors
exactly when some row's date fails to parse, and a successful load keeps
every row (same length, fields copied verbatim) with each date the parse
of that row's date string, fabricating nothing. -/
theorem c6_load_aborts (raws : List RawResultRow) :
    ((∃ e, load_results raws = .error e) ↔
      ∃ raw ∈ raws, parseDate raw.date = none) ∧
    (∀ rows, load_results raws = .ok rows →
      rows.length = raws.length ∧
      List.Forall₂ (fun (raw : RawResultRow) (row : ResultRow) =>
        parseDate raw.date = some row.date ∧
        row.home_team = raw.home_team ∧ row.away_team = raw.away_team ∧
        row.home_score = raw.home_score ∧ row.away_score = raw.away_score ∧
        row.tournament = raw.tournament) raws rows) := by
  induction raws with
  | nil =>
    constructor
    · simp [load_results]
    · intro rows h
      simp only [load_results] at h
      injection h with h
      subst h
      simp
  | cons raw rest ih =>
    cases hp : parseDate raw.date with
    | none =>
      constructor
      · simp only [load_results, hp]
        constructor
        · intro _
          exact ⟨raw, List.mem_cons_self raw rest, hp⟩
        · intro _
          exact ⟨_, rfl⟩
      · intro rows h
        simp only [load_results, hp] at h
        exact Except.noConfusion h
    | some d =>
      cases hl : load_results rest with
      | error e =>
        have hrest : ∃ raw' ∈ rest, parseDate raw'.date = none :=
          ih.1.mp ⟨e, hl⟩
        constructor
        · constructor
          · rintro -
            obtain ⟨raw', hmem, hpn⟩ := hrest
            exact ⟨raw', List.mem_cons_of_mem raw hmem, hpn⟩
          · rintro -
            refine ⟨e, ?_⟩
            simp only [load_results, hp, hl]
        · intro rows h
          simp only [load_results, hp, hl] at h
          exact Except.noConfusion h
      | ok rs =>
        constructor
        · constructor
          · rintro ⟨e, he⟩
            simp only [load_results, hp, hl] at he
            exact Except.noConfusion he
          · rintro ⟨raw', hmem, hpn⟩
            rcases List.mem_cons.mp hmem with rfl | hmem'
            · rw [hp] at hpn
              cases hpn
            · obtain ⟨e, he⟩ := ih.1.mpr ⟨raw', hmem', hpn⟩
              rw [hl] at he
              cases he
        · intro rows h
          simp only [load_results, hp, hl] at h
          injection h with h
          subst h
          obtain ⟨hlen, hfa⟩ := ih.2 rs hl
          constructor
          · simp [hlen]
          · exact List.Forall₂.cons ⟨hp, rfl, rfl, rfl, rfl, rfl⟩ hfa

/-- C6 counterexample: on a table whose second row has an unparseable
date, the load returns an error and never a row list — it does not skip
the offending row and continue, refuting the claimed row-level
skip-and-continue policy. -/
theorem c6_counterexample :
    load_results
        [⟨"1872-11-30", "Scotland", "England", 0, 0, "Friendly"⟩,
          ⟨"not a date", "England", "Scotland", 4, 2, "Friendly"⟩,
          ⟨"1873-03-08", "England", "Scotland", 4, 2, "Friendly"⟩] =
      .error ("unparseable date: " ++ "not a date") ∧
    ∀ rows, load_results
        [⟨"1872-11-30", "Scotland", "England", 0, 0, "Friendly"⟩,
          ⟨"not a date", "England", "Scotland", 4, 2, "Friendly"⟩,
          ⟨"1873-03-08", "England", "Scotland", 4, 2, "Friendly"⟩] ≠
      .ok rows := by
  refine ⟨rfl, ?_⟩
  intro rows h
  rw [show load_results
      [⟨"1872-11-30", "Scotland", "England", 0, 0, "Friendly"⟩,
        ⟨"not a date", "England", "Scotland", 4, 2, "Friendly"⟩,
        ⟨"1873-03-08", "England", "Scotland", 4, 2, "Friendly"⟩] =
      .error ("unparseable date: " ++ "not a date") from rfl] at h
  exact Except.noConfusion h

/-- Evaluation of `c6_load_aborts` at a one-row table with a well-formed
date: the row is loaded unchanged. -/
theorem c6_load_aborts_witness :
    ([⟨⟨1872, 11, 30⟩, "Scotland", "England", 0, 0, "Friendly"⟩] :
        List ResultRow).length =
      ([⟨"1872-11-30", "Scotland", "England", 0, 0, "Friendly"⟩] :
        List RawResultRow).length ∧
    List.Forall₂ (fun (raw : RawResultRow) (row : ResultRow) =>
      parseDate raw.date = some row.date ∧
      row.home_team = raw.home_team ∧ row.away_team = raw.away_team ∧
      row.home_score = raw.home_score ∧ row.away_score = raw.away_score ∧
      row.tournament = raw.tournament)
      [⟨"1872-11-30", "Scotland", "England", 0, 0, "Friendly"⟩]
      [⟨⟨1872, 11, 30⟩, "Scotland", "England", 0, 0, "Friendly"⟩] :=
  (c6_load_aborts
      [⟨"1872-11-30", "Scotland", "England", 0, 0, "Friendly"⟩]).2
    [⟨⟨1872, 11, 30⟩, "Scotland", "England", 0, 0, "Friendly"⟩] rfl

/-- C9: the queries leave the loaded tables unchanged — the head-to-head
page run and the World Cup page run return the very table state they were
given (the label column and the final-winner write target copies produced
by boolean-mask indexing and `iloc`, per pandas copy semantics) — and
repeating an invocation with the same parameters returns the same
result. -/
theorem c9_queries_pure (t : Tables) (team1 team2 filt : String)
    (sd ed : Date) (year : Nat) :
    (run_head_to_head t team1 team2 filt sd ed).2 = t ∧
    (run_world_cup t year).2 = t ∧
    run_head_to_head (run_head_to_head t team1 team2 filt sd ed).2 team1
        team2 filt sd ed =
      run_head_to_head t team1 team2 filt sd ed ∧
    run_world_cup (run_world_cup t year).2 year = run_world_cup t year :=
  ⟨rfl, rfl, rfl, rfl⟩

theorem tournamentOptMatches_iff (filt : String) (t? : Option String) :
    tournamentOptMatches filt t? = true ↔
      (filt = "" ∨ ∃ tn, t? = some tn ∧ ContainsCI tn filt) := by
  cases t? with
  | none => simp [tournamentOptMatches]
  | some tn =>
    simp only [tournamentOptMatches, containsCI_iff, Option.some.injEq]
    constructor
    · intro h
      exact Or.inr ⟨tn, rfl, h⟩
    · rintro (rfl | ⟨tn', rfl, h⟩)
      · exact containsCI_empty tn
      · exact h

/-- C10: the player comparison query (modelled from spec §4.5; it has no
implementation in `src/app.py`) returns exactly the goal events whose
scorer is one of the two players, whose date lies in the inclusive range,
and whose derived tournament passes the filter: the empty filter matches
every event, and an event with absent derived tournament never matches a
non-empty filter. -/
theorem c10_player_comparison_selection :
    (∀ (goals : List GoalRow) (p1 p2 filt : String) (sd ed : Date)
        (g : GoalRow),
      g ∈ prepare_player_comparison_data goals p1 p2 filt sd ed ↔
        g ∈ goals ∧ (g.scorer = p1 ∨ g.scorer = p2) ∧
          (filt = "" ∨ ∃ tn, g.tournament = some tn ∧ ContainsCI tn filt) ∧
          (Date.le sd g.date = true ∧ Date.le g.date ed = true)) ∧
    (∀ t? : Option String, tournamentOptMatches "" t? = true) ∧
    (∀ filt : String, filt ≠ "" → tournamentOptMatches filt none = false) := by
  refine ⟨?_, ?_, ?_⟩
  · intro goals p1 p2 filt sd ed g
    simp only [prepare_player_comparison_data, List.mem_filter,
      Bool.and_eq_true, Bool.or_eq_true, decide_eq_true_eq,
      tournamentOptMatches_iff]
    tauto
  · intro t?
    cases t? with
    | none => simp [tournamentOptMatches]
    | some tn => exact (containsCI_iff tn "").mpr (containsCI_empty tn)
  · intro filt h
    simp [tournamentOptMatches, h]

/-- Evaluation of `c10_player_comparison_selection` at a concrete goal
table: a goal by the first queried player, inside the range, whose derived
tournament contains the lower-case filter. -/
theorem c10_player_comparison_selection_witness :
    (⟨⟨2022, 12, 18⟩, "Argentina", "France", "Lionel Messi", 23, true,
        some "FIFA World Cup"⟩ : GoalRow) ∈
      prepare_player_comparison_data
        [⟨⟨2022, 12, 18⟩, "Argentina", "France", "Lionel Messi", 23, true,
          some "FIFA World Cup"⟩]
        "Lionel Messi" "Kylian Mbappe" "world" ⟨2022, 1, 1⟩
        ⟨2022, 12, 31⟩ :=
  (c10_player_comparison_selection.1 _ "Lionel Messi" "Kylian Mbappe"
      "world" ⟨2022, 1, 1⟩ ⟨2022, 12, 31⟩ _).mpr
    ⟨by simp, Or.inl rfl,
      Or.inr ⟨"FIFA World Cup", rfl, (containsCI_iff _ _).mp (by decide)⟩,
      by decide, by decide⟩
